import Mathlib

/-!
Shallow embedding of `src/scrapper.py` (Iniivan13/news-scrapper): the
concurrent fetch-orchestration and retry core of the cybersecurity news
aggregator.  Pure Python functions are translated to Lean functions;
network I/O is modelled by explicit environment parameters (per-attempt
HTTP outcomes, per-URL feed-parse outcomes, the HTML-to-entries parse of
BeautifulSoup), and the wall clock by a `now` string parameter standing
for `datetime.now().strftime(...)`.  Exceptions a Python snippet may
raise are modelled with `Except String`; every fetcher catches them and
converts them to an `error`-status result, exactly as the source does.
-/

set_option autoImplicit false
set_option maxRecDepth 10000

namespace Scrapper

/-- One retrieved news item: the article dict built by the fetchers.
The concrete Python dicts carry different key sets (the feed paths set
`published`, the Krebs scrape path sets `scraped_at` instead; only
`fetch_rss_feed` may set `author`), so presence of a key is modelled by
an `Option` field being `some`. -/
structure Article where
  title : String
  url : String
  summary : String
  published : Option String
  scraped_at : Option String
  source : String
  author : Option String
  deriving Repr, DecidableEq

/-- Model of the `ScrapingResult` dataclass (src/scrapper.py lines 31-37). -/
structure ScrapingResult where
  source : String
  articles : List Article
  status : String
  error : Option String := none
  deriving Repr, DecidableEq

/-- The `retry_config` dict of `AsyncWebScraper.__init__` (line 48). -/
structure RetryConfig where
  max_retries : Nat
  base_delay : Nat
  max_delay : Nat
  backoff_factor : Nat
  deriving Repr, DecidableEq

/-- The configured policy `{'max_retries': 3, 'base_delay': 1, 'max_delay': 10, 'backoff_factor': 2}`. -/
def defaultRetryConfig : RetryConfig :=
  { max_retries := 3, base_delay := 1, max_delay := 10, backoff_factor := 2 }

/-- The delay computed at lines 59-62:
`min(base_delay * backoff_factor ** attempt, max_delay)`. -/
def delayFor (cfg : RetryConfig) (attempt : Nat) : Nat :=
  min (cfg.base_delay * cfg.backoff_factor ^ attempt) cfg.max_delay

/-- The delay actually slept before an attempt: lines 64-65 sleep
`delayFor` only when `attempt > 0`. -/
def sleptBefore (cfg : RetryConfig) (attempt : Nat) : Nat :=
  if 0 < attempt then delayFor cfg attempt else 0

/-- Outcome of one `session.get` attempt: either an exception (anything the
`try` block raises, caught at line 70) or an HTTP `(status, body)` pair. -/
abbrev AttemptOutcome := Except String (Nat × String)

/-- Whether an attempt's outcome makes `scrape_with_retry` return: only a
response with `status == 200` does (line 68). -/
def attemptOk : AttemptOutcome → Bool
  | .ok (status, _) => status == 200
  | .error _ => false

/-- The body of the `for attempt in range(max_retries)` loop of
`scrape_with_retry` (lines 56-73), unrolled from attempt index `a` with
`fuel` iterations remaining.  Returns the body of the first attempt whose
status is exactly 200 (or `none` when the loop falls through) together
with the list of delays slept, in order. -/
def retryFrom (cfg : RetryConfig) (outcomes : Nat → AttemptOutcome) :
    Nat → Nat → Option String × List Nat
  | _, 0 => (none, [])
  | a, fuel + 1 =>
    let sleeps := if 0 < a then [delayFor cfg a] else []
    match outcomes a with
    | .ok (status, body) =>
      if status == 200 then (some body, sleeps)
      else
        let r := retryFrom cfg outcomes (a + 1) fuel
        (r.1, sleeps ++ r.2)
    | .error _ =>
      let r := retryFrom cfg outcomes (a + 1) fuel
      (r.1, sleeps ++ r.2)

/-- Model of `AsyncWebScraper.scrape_with_retry` (lines 56-73): up to `max_retries`
attempts starting at attempt 0. -/
def scrapeWithRetry (cfg : RetryConfig) (outcomes : Nat → AttemptOutcome) :
    Option String × List Nat :=
  retryFrom cfg outcomes 0 cfg.max_retries

/-- Python truthiness test `not x` for an optional string: `None` and the
empty string are falsy. -/
def optStrFalsy : Option String → Bool
  | none => true
  | some s => s == ""

/-- One entry of a parsed syndication feed, as the fetchers read it:
`entry.get('title')`, `entry.get('link')`, `entry.get('summary')`,
`entry.get('published')` and the optional `entry.author` attribute. -/
structure FeedEntry where
  title : Option String
  link : Option String
  summary : Option String
  published : Option String
  author : Option String
  deriving Repr, DecidableEq

/-- Result of `feedparser.parse(url)` inside a `try` block: either the
entry list or an exception message caught by the enclosing `except`. -/
abbrev FeedOutcome := Except String (List FeedEntry)

/-- Python `s.replace(a, b)` for a single-character pattern and
replacement: matches cannot overlap, so it is a character map. -/
def replaceChar (s : String) (a b : Char) : String :=
  String.mk (s.data.map fun c => if c == a then b else c)

/-- Python slicing `s[:n]`: the first `n` characters of `s`. -/
def pyTake (s : String) (n : Nat) : String := String.mk (s.data.take n)

/-- Python `s.lower()`, character by character. -/
def pyLower (s : String) : String := String.mk (s.data.map Char.toLower)

/-- Python's `str.title()` restricted to ASCII letters: the first letter
of each run of letters is uppercased and the rest lowercased; other
characters pass through and end the current word. -/
def pyTitleAux : List Char → Bool → List Char
  | [], _ => []
  | c :: cs, prevAlpha =>
    (if c.isAlpha then (if prevAlpha then c.toLower else c.toUpper) else c)
      :: pyTitleAux cs c.isAlpha

/-- Python `s.title()` on the strings this program feeds it (ASCII source ids). -/
def pyTitle (s : String) : String := String.mk (pyTitleAux s.data false)

/-- The article dict built for one entry inside `fetch_rss_feed`
(lines 203-219): `title[:100]` defaulting to `'N/A'`, `str(url)` with the
link defaulting to `'N/A'`, `summary[:250]` defaulting to `''`,
`published` defaulting to the formatted current time `now`, the source id
rewritten `source.replace('_', ' ').title()`, and `author` only when the
entry has one. -/
def rssArticle (source now : String) (e : FeedEntry) : Article :=
  { title := pyTake (e.title.getD "N/A") 100
    url := e.link.getD "N/A"
    summary := pyTake (e.summary.getD "") 250
    published := some (e.published.getD now)
    scraped_at := none
    source := pyTitle (replaceChar source '_' ' ')
    author := e.author }

/-- The `rss_feeds` dict of `RSSFeedAggregator.__init__` (lines 185-192). -/
def rss_feeds : List (String × String) :=
  [("gb_hackers", "https://gbhackers.com/feed/"),
   ("the_hacker_news", "https://feeds.feedburner.com/TheHackersNews"),
   ("security_week", "https://www.securityweek.com/feed/"),
   ("dark_reading", "https://www.darkreading.com/rss.xml"),
   ("bleeping_computer", "https://www.bleepingcomputer.com/feed/"),
   ("krebs_security", "https://krebsonsecurity.com/feed/")]

/-- Model of `self.rss_feeds.get(source)` (line 196). -/
def lookupFeed (source : String) : Option String := rss_feeds.lookup source

/-- Model of `RSSFeedAggregator.fetch_rss_feed` (lines 194-227).  `feeds` maps a
feed URL to what `feedparser.parse` yields for it.  The second component
is the list of URLs actually retrieved, so that the no-feed-configured
branch is visibly network-free.  Per-entry exceptions are caught and skip
the entry in Python; dict construction cannot fail in the model, so every
taken entry yields an article. -/
def fetchRssFeed (feeds : String → FeedOutcome) (now source : String)
    (limit : Nat) : ScrapingResult × List String :=
  let feedUrl := lookupFeed source
  if optStrFalsy feedUrl then
    ({ source := source, articles := [], status := "error",
       error := some "No RSS feed configured" }, [])
  else
    let url := feedUrl.getD ""
    match feeds url with
    | .error e =>
      ({ source := source, articles := [], status := "error", error := some e }, [url])
    | .ok entries =>
      ({ source := source,
         articles := (entries.take limit).map (rssArticle source now),
         status := "success", error := none }, [url])

/-- The article dict built for one entry inside `scrape_dark_reading`
(lines 85-91): like the RSS one but with the fixed label `'Dark Reading'`
and no author key. -/
def darkReadingArticle (now : String) (e : FeedEntry) : Article :=
  { title := pyTake (e.title.getD "N/A") 100
    url := e.link.getD "N/A"
    summary := pyTake (e.summary.getD "") 250
    published := some (e.published.getD now)
    scraped_at := none
    source := "Dark Reading"
    author := none }

/-- Model of `AsyncWebScraper.scrape_dark_reading` (lines 75-100): a single-shot
feed fetch; any exception yields an error result carrying `str(e)`. -/
def scrapeDarkReading (feeds : String → FeedOutcome) (now : String)
    (limit : Nat) : ScrapingResult :=
  match feeds "https://www.darkreading.com/rss.xml" with
  | .error e =>
    { source := "dark_reading", articles := [], status := "error", error := some e }
  | .ok entries =>
    { source := "dark_reading",
      articles := (entries.take limit).map (darkReadingArticle now),
      status := "success", error := none }

/-- The article dict built inside `scrape_bleeping_computer` (lines 112-118). -/
def bleepingComputerArticle (now : String) (e : FeedEntry) : Article :=
  { title := pyTake (e.title.getD "N/A") 100
    url := e.link.getD "N/A"
    summary := pyTake (e.summary.getD "") 250
    published := some (e.published.getD now)
    scraped_at := none
    source := "Bleeping Computer"
    author := none }

/-- Model of `AsyncWebScraper.scrape_bleeping_computer` (lines 102-127). -/
def scrapeBleepingComputer (feeds : String → FeedOutcome) (now : String)
    (limit : Nat) : ScrapingResult :=
  match feeds "https://www.bleepingcomputer.com/feed/" with
  | .error e =>
    { source := "bleeping_computer", articles := [], status := "error", error := some e }
  | .ok entries =>
    { source := "bleeping_computer",
      articles := (entries.take limit).map (bleepingComputerArticle now),
      status := "success", error := none }

/-- The `<a>` element found inside a title element, with its optional
`href` attribute. -/
structure LinkElem where
  href : Option String
  deriving Repr, DecidableEq

/-- A candidate title element of one Krebs `<article>`: its stripped text
and the optional link child `title_elem.find('a')`. -/
structure TitleElem where
  text : String
  link : Option LinkElem
  deriving Repr, DecidableEq

/-- One `<article>` element of the Krebs page, as the selectors of lines
144-163 read it: the primary `h2.entry-title`, the fallback first
`h2`/`h3`, the primary `div.entry-summary` text and the fallback first
`<p>` text. -/
structure KrebsEntry where
  entryTitle : Option TitleElem
  fallbackTitle : Option TitleElem
  entrySummary : Option String
  fallbackP : Option String
  deriving Repr, DecidableEq

/-- The title element actually used: `element.find('h2', class_='entry-title')`,
falling back to `element.find(['h2', 'h3'])` (lines 144-146). -/
def titleElemOf (e : KrebsEntry) : Option TitleElem :=
  match e.entryTitle with
  | some t => some t
  | none => e.fallbackTitle

/-- The href reachable through the chosen title element's link child,
`None`-like when the `<a>` is missing or carries no `href`. -/
def linkHrefOf (e : KrebsEntry) : Option String :=
  match titleElemOf e with
  | none => none
  | some t =>
    match t.link with
    | some l => l.href
    | none => none

/-- The per-entry body of the Krebs scrape loop (lines 142-173): skip when
no title element is found; skip unless `link_elem and link_elem.get('href')`
is truthy (so a missing or empty `href` drops the entry); summary from
`div.entry-summary` falling back to the first `<p>`, else `''`, truncated
to 300; the dict keys are `title`, `url`, `summary`, `scraped_at`, `source`. -/
def parseKrebsEntry (now : String) (e : KrebsEntry) : Option Article :=
  match titleElemOf e with
  | none => none
  | some t =>
    match linkHrefOf e with
    | none => none
    | some url =>
      if url == "" then none
      else
        let summary := (e.entrySummary.orElse fun _ => e.fallbackP).getD ""
        some { title := t.text
               url := url
               summary := pyTake summary 300
               published := none
               scraped_at := some now
               source := "Krebs on Security"
               author := none }

/-- Model of `AsyncWebScraper.scrape_krebs_security` (lines 129-179).  `outcomes`
gives each retry attempt's HTTP outcome; `parseHtml` is BeautifulSoup's
`find_all('article')` on the fetched body; `outerExc` models an exception
raised outside the retry loop (session setup, parsing), caught at line
177 and surfaced as `str(e)`.  `if not html` (line 134) treats both
`None` and an empty body as a failed fetch. -/
def scrapeKrebsSecurity (outcomes : Nat → AttemptOutcome)
    (parseHtml : String → List KrebsEntry) (now : String) (limit : Nat)
    (outerExc : Option String) : ScrapingResult :=
  match outerExc with
  | some e =>
    { source := "krebs_security", articles := [], status := "error", error := some e }
  | none =>
    let html := (scrapeWithRetry defaultRetryConfig outcomes).1
    if optStrFalsy html then
      { source := "krebs_security", articles := [], status := "error",
        error := some "Failed to fetch" }
    else
      let storyElements := (parseHtml (html.getD "")).take limit
      { source := "krebs_security",
        articles := storyElements.filterMap (parseKrebsEntry now),
        status := "success", error := none }

/-- The external world one orchestration run interacts with: feed-parse
outcomes per URL, per-attempt HTTP outcomes for the Krebs retry loop, the
HTML parse, and an optional exception outside the Krebs retry loop. -/
structure ScrapeEnv where
  feeds : String → FeedOutcome
  krebsOutcomes : Nat → AttemptOutcome
  parseHtml : String → List KrebsEntry
  krebsOuterExc : Option String

/-- The six fetchers dispatched by `scrape_all_async` (lines 240-250), in
submission order: the three async scraper coroutines followed by the
three thread-offloaded `fetch_rss_feed` calls. -/
def allTaskResults (env : ScrapeEnv) (now : String) (limit : Nat) :
    List ScrapingResult :=
  [scrapeDarkReading env.feeds now limit,
   scrapeBleepingComputer env.feeds now limit,
   scrapeKrebsSecurity env.krebsOutcomes env.parseHtml now limit env.krebsOuterExc,
   (fetchRssFeed env.feeds now "gb_hackers" limit).1,
   (fetchRssFeed env.feeds now "the_hacker_news" limit).1,
   (fetchRssFeed env.feeds now "security_week" limit).1]

/-- Model of `asyncio.gather(*all_tasks, return_exceptions=True)` (line 253):
the result list is ordered by the position of each awaitable in the
argument list, regardless of the order in which the tasks complete; a
task that raised would appear as its exception.  Every fetcher catches
all of its exceptions and returns a `ScrapingResult`, so each outcome is
`.ok`.  The `completionOrder` argument records which task finished first,
second, ... — by `gather`'s contract it cannot influence the returned
list. -/
def gatherResults (tasks : List ScrapingResult)
    (_completionOrder : List Nat) : List (Except String ScrapingResult) :=
  tasks.map Except.ok

/-- Model of `result.source.lower().replace(' ', '_')` (line 258). -/
def normKey (s : String) : String := replaceChar (pyLower s) ' ' '_'

/-- Python dict assignment `results[source_key] = result`: replace in
place when the key exists (keeping its original position), else append. -/
def dictInsert (m : List (String × ScrapingResult)) (k : String)
    (v : ScrapingResult) : List (String × ScrapingResult) :=
  if m.any (fun p => p.1 == k) then
    m.map (fun p => if p.1 == k then (k, v) else p)
  else m ++ [(k, v)]

/-- Model of `CybersecurityAggregator.scrape_all_async` (lines 236-263).  Returns
the `results` dict (as an insertion-ordered association list) and the
trace of `(source_key, result)` pairs passed to the progress callback,
in the order the callback is invoked (lines 255-261: one loop over the
gathered list, skipping anything that is not a `ScrapingResult`). -/
def scrapeAllAsync (env : ScrapeEnv) (now : String) (limit : Nat)
    (completionOrder : List Nat) :
    List (String × ScrapingResult) × List (String × ScrapingResult) :=
  let resultsList := gatherResults (allTaskResults env now limit) completionOrder
  resultsList.foldl
    (fun acc outcome =>
      match outcome with
      | .ok result =>
        let sourceKey := normKey result.source
        (dictInsert acc.1 sourceKey result, acc.2 ++ [(sourceKey, result)])
      | .error _ => acc)
    ([], [])

/-- The aggregation loop of `save_results` (lines 269-272) and
`run_scraping` (lines 734-736): extend `all_articles` with each
success-status result's articles, in the iteration order of the results
dict. -/
def allArticles (results : List (String × ScrapingResult)) : List Article :=
  results.foldl
    (fun acc p => if p.2.status == "success" then acc ++ p.2.articles else acc)
    []

/-- The `total_count` accumulation of `run_scraping` (lines 733-737). -/
def totalCount (results : List (String × ScrapingResult)) : Nat :=
  results.foldl
    (fun acc p => if p.2.status == "success" then acc + p.2.articles.length else acc)
    0

/-- The observable outcome of `save_results`: the two returned file names
and whether the `"No articles to save"` warning was issued.  A `some`
file name means the corresponding file was written. -/
structure SaveOutput where
  csvFile : Option String
  jsonFile : Option String
  warnedNoData : Bool
  deriving Repr, DecidableEq

/-- Model of `CybersecurityAggregator.save_results` (lines 265-310): aggregate the
success-status articles; when the list is empty warn and return
`(None, None)` without writing anything; otherwise write the CSV and/or
JSON file according to `format_type` and return their names. -/
def saveResults (timestamp : String) (results : List (String × ScrapingResult))
    (formatType : String) : SaveOutput :=
  let all_articles := allArticles results
  if all_articles.isEmpty then
    { csvFile := none, jsonFile := none, warnedNoData := true }
  else
    let csvFile :=
      if formatType == "csv" || formatType == "both" then
        some ("cybersecurity_news_" ++ timestamp ++ ".csv")
      else none
    let jsonFile :=
      if formatType == "json" || formatType == "both" then
        some ("cybersecurity_news_" ++ timestamp ++ ".json")
      else none
    { csvFile := csvFile, jsonFile := jsonFile, warnedNoData := false }

/-- Witness for `orchestrator_one_result_per_source`: a concrete
environment in which gb_hackers succeeds with one entry and the Krebs
retries all fail. -/
def witnessEnvC1 : ScrapeEnv :=
  { feeds := fun url =>
      if url = "https://gbhackers.com/feed/" then
        Except.ok [{ title := some "One article", link := some "https://gbhackers.com/a1/",
                     summary := some "summary", published := some "2025-01-01",
                     author := none }]
      else Except.error "connection error"
    krebsOutcomes := fun _ => Except.error "connection error"
    parseHtml := fun _ => []
    krebsOuterExc := none }

/-- Title element of the concrete Krebs entry `krebsEntryW7`. -/
def titleElemW7 : TitleElem :=
  { text := "Patch Tuesday",
    link := some { href := some "https://krebsonsecurity.com/post-1/" } }

/-- Concrete Krebs entry used to witness the link-extraction claim. -/
def krebsEntryW7 : KrebsEntry :=
  { entryTitle := some titleElemW7,
    fallbackTitle := none, entrySummary := none, fallbackP := some "A summary." }

/-- The article `parseKrebsEntry` produces from `krebsEntryW7`. -/
def krebsArticleW7 : Article :=
  { title := "Patch Tuesday", url := "https://krebsonsecurity.com/post-1/",
    summary := "A summary.", published := none,
    scraped_at := some "2025-01-01 00:00",
    source := "Krebs on Security", author := none }

/-- Concrete feed entry with no upstream `published` value. -/
def feedEntryW8 : FeedEntry :=
  { title := some "T", link := some "https://gbhackers.com/a/",
    summary := none, published := none, author := none }

/-- Title element of the concrete Krebs entry `krebsEntryW8`. -/
def titleElemW8 : TitleElem :=
  { text := "Patch Wednesday",
    link := some { href := some "https://krebsonsecurity.com/post-2/" } }

/-- Concrete Krebs entry used for the published-field claim. -/
def krebsEntryW8 : KrebsEntry :=
  { entryTitle := some titleElemW8,
    fallbackTitle := none, entrySummary := none, fallbackP := none }

/-- The article `parseKrebsEntry` produces from `krebsEntryW8`. -/
def krebsArticleW8 : Article :=
  { title := "Patch Wednesday", url := "https://krebsonsecurity.com/post-2/",
    summary := "", published := none,
    scraped_at := some "2025-01-01 00:00",
    source := "Krebs on Security", author := none }

/-- Title element of the concrete Krebs entry `krebsEntryX8`. -/
def titleElemX8 : TitleElem :=
  { text := "Krebs post",
    link := some { href := some "https://krebsonsecurity.com/post-3/" } }

/-- Concrete Krebs entry with title, link and summary present. -/
def krebsEntryX8 : KrebsEntry :=
  { entryTitle := some titleElemX8,
    fallbackTitle := none, entrySummary := some "Body text.", fallbackP := none }

/-- The per-result invariant claimed in §3 of the spec for `SourceResult`. -/
def resultInvariant (r : ScrapingResult) : Prop :=
  (r.status = "success" → r.error = none) ∧ (r.articles ≠ [] → r.status = "success")

lemma source_scrapeDarkReading (feeds : String → FeedOutcome) (now : String)
    (limit : Nat) : (scrapeDarkReading feeds now limit).source = "dark_reading" := by
  unfold scrapeDarkReading
  cases feeds "https://www.darkreading.com/rss.xml" <;> rfl

lemma source_scrapeBleepingComputer (feeds : String → FeedOutcome) (now : String)
    (limit : Nat) :
    (scrapeBleepingComputer feeds now limit).source = "bleeping_computer" := by
  unfold scrapeBleepingComputer
  cases feeds "https://www.bleepingcomputer.com/feed/" <;> rfl

lemma source_scrapeKrebsSecurity (outcomes : Nat → AttemptOutcome)
    (ph : String → List KrebsEntry) (now : String) (limit : Nat)
    (exc : Option String) :
    (scrapeKrebsSecurity outcomes ph now limit exc).source = "krebs_security" := by
  unfold scrapeKrebsSecurity
  cases exc
  · dsimp only
    split <;> rfl
  · rfl

lemma source_fetchRssFeed (feeds : String → FeedOutcome) (now source : String)
    (limit : Nat) : (fetchRssFeed feeds now source limit).1.source = source := by
  unfold fetchRssFeed
  dsimp only
  split
  · rfl
  · split <;> rfl

lemma retryFrom_fst_none (cfg : RetryConfig) (outcomes : Nat → AttemptOutcome) :
    ∀ (fuel a : Nat), (∀ k, k < fuel → attemptOk (outcomes (a + k)) = false) →
      (retryFrom cfg outcomes a fuel).1 = none := by
  intro fuel
  induction fuel with
  | zero => intro a _; rfl
  | succ n ih =>
    intro a h
    have h0 : attemptOk (outcomes a) = false := by simpa using h 0 (Nat.succ_pos n)
    have hrest : ∀ k, k < n → attemptOk (outcomes (a + 1 + k)) = false := by
      intro k hk
      have h' := h (k + 1) (Nat.succ_lt_succ hk)
      rw [show a + (k + 1) = a + 1 + k by omega] at h'
      exact h'
    unfold retryFrom
    cases ho : outcomes a with
    | ok p =>
      obtain ⟨status, body⟩ := p
      have hs : (status == 200) = false := by
        rw [ho] at h0; simpa [attemptOk] using h0
      simp only [hs, Bool.false_eq_true, if_false]
      exact ih (a + 1) hrest
    | error e =>
      exact ih (a + 1) hrest

lemma retryFrom_fst_some (cfg : RetryConfig) (outcomes : Nat → AttemptOutcome) :
    ∀ (fuel a : Nat) (body : String),
      (retryFrom cfg outcomes a fuel).1 = some body →
      ∃ k, k < fuel ∧ outcomes (a + k) = Except.ok (200, body) ∧
        ∀ j, j < k → attemptOk (outcomes (a + j)) = false := by
  intro fuel
  induction fuel with
  | zero => intro a body h; exact absurd h (by simp [retryFrom])
  | succ n ih =>
    intro a body h
    unfold retryFrom at h
    cases ho : outcomes a with
    | ok p =>
      obtain ⟨status, body'⟩ := p
      rw [ho] at h
      by_cases hs : (status == 200) = true
      · have h200 : status = 200 := by simpa using hs
        simp only [hs, if_true] at h
        refine ⟨0, Nat.succ_pos n, ?_, fun j hj => absurd hj (Nat.not_lt_zero j)⟩
        rw [Nat.add_zero, ho, h200]
        simpa using h
      · have hs' : (status == 200) = false := Bool.eq_false_iff.mpr hs
        simp only [hs', Bool.false_eq_true, if_false] at h
        obtain ⟨k, hk, hko, hkj⟩ := ih (a + 1) body h
        refine ⟨k + 1, Nat.succ_lt_succ hk, ?_, ?_⟩
        · rw [show a + (k + 1) = a + 1 + k by omega]; exact hko
        · intro j hj
          cases j with
          | zero => rw [Nat.add_zero, ho]; simp [attemptOk, hs']
          | succ j' =>
            have := hkj j' (Nat.lt_of_succ_lt_succ hj)
            rw [show a + (j' + 1) = a + 1 + j' by omega]
            exact this
    | error e =>
      rw [ho] at h
      obtain ⟨k, hk, hko, hkj⟩ := ih (a + 1) body h
      refine ⟨k + 1, Nat.succ_lt_succ hk, ?_, ?_⟩
      · rw [show a + (k + 1) = a + 1 + k by omega]; exact hko
      · intro j hj
        cases j with
        | zero => rw [Nat.add_zero, ho]; simp [attemptOk]
        | succ j' =>
          have := hkj j' (Nat.lt_of_succ_lt_succ hj)
          rw [show a + (j' + 1) = a + 1 + j' by omega]
          exact this

lemma retryFrom_fst_first_success (cfg : RetryConfig)
    (outcomes : Nat → AttemptOutcome) :
    ∀ (fuel a k : Nat) (body : String), k < fuel →
      outcomes (a + k) = Except.ok (200, body) →
      (∀ j, j < k → attemptOk (outcomes (a + j)) = false) →
      (retryFrom cfg outcomes a fuel).1 = some body := by
  intro fuel
  induction fuel with
  | zero => intro a k body hk _ _; exact absurd hk (Nat.not_lt_zero k)
  | succ n ih =>
    intro a k body hk hok hj
    unfold retryFrom
    cases k with
    | zero =>
      rw [Nat.add_zero] at hok
      rw [hok]
      rfl
    | succ k' =>
      have h0 : attemptOk (outcomes a) = false := by
        have := hj 0 (Nat.succ_pos k')
        rwa [Nat.add_zero] at this
      have hok' : outcomes (a + 1 + k') = Except.ok (200, body) := by
        rw [show a + 1 + k' = a + (k' + 1) by omega]
        exact hok
      have hj' : ∀ j, j < k' → attemptOk (outcomes (a + 1 + j)) = false := by
        intro j hjk
        have := hj (j + 1) (Nat.succ_lt_succ hjk)
        rwa [show a + (j + 1) = a + 1 + j by omega] at this
      have hrec := ih (a + 1) k' body (Nat.lt_of_succ_lt_succ hk) hok' hj'
      cases ho : outcomes a with
      | ok p =>
        obtain ⟨status, b⟩ := p
        have hs : (status == 200) = false := by
          rw [ho] at h0; simpa [attemptOk] using h0
        simp only [hs, Bool.false_eq_true, if_false]
        exact hrec
      | error e => exact hrec

lemma retryFrom_congr (cfg : RetryConfig) (f g : Nat → AttemptOutcome) :
    ∀ (fuel a : Nat), (∀ k, k < fuel → f (a + k) = g (a + k)) →
      retryFrom cfg f a fuel = retryFrom cfg g a fuel := by
  intro fuel
  induction fuel with
  | zero => intro a _; rfl
  | succ n ih =>
    intro a h
    have h0 : f a = g a := by simpa using h 0 (Nat.succ_pos n)
    have hrest : ∀ k, k < n → f (a + 1 + k) = g (a + 1 + k) := by
      intro k hk
      have h' := h (k + 1) (Nat.succ_lt_succ hk)
      rw [show a + (k + 1) = a + 1 + k by omega] at h'
      exact h'
    unfold retryFrom
    rw [h0, ih (a + 1) hrest]

lemma retryFrom_trace (cfg : RetryConfig) (outcomes : Nat → AttemptOutcome) :
    ∀ (fuel a : Nat), (∀ k, k < fuel → attemptOk (outcomes (a + k)) = false) →
      (retryFrom cfg outcomes a fuel).2 =
        (List.range' a fuel).flatMap
          (fun i => if 0 < i then [delayFor cfg i] else []) := by
  intro fuel
  induction fuel with
  | zero => intro a _; rfl
  | succ n ih =>
    intro a h
    have h0 : attemptOk (outcomes a) = false := by simpa using h 0 (Nat.succ_pos n)
    have hrest : ∀ k, k < n → attemptOk (outcomes (a + 1 + k)) = false := by
      intro k hk
      have h' := h (k + 1) (Nat.succ_lt_succ hk)
      rw [show a + (k + 1) = a + 1 + k by omega] at h'
      exact h'
    unfold retryFrom
    rw [List.range'_succ, List.flatMap_cons]
    cases ho : outcomes a with
    | ok p =>
      obtain ⟨status, body⟩ := p
      have hs : (status == 200) = false := by
        rw [ho] at h0; simpa [attemptOk] using h0
      simp only [hs, Bool.false_eq_true, if_false]
      rw [ih (a + 1) hrest]
    | error e =>
      dsimp only
      rw [ih (a + 1) hrest]

lemma allArticles_foldl (rs : List (String × ScrapingResult)) :
    ∀ acc : List Article,
      rs.foldl (fun acc p =>
          if p.2.status == "success" then acc ++ p.2.articles else acc) acc =
        acc ++ (rs.filter fun p => p.2.status == "success").flatMap
          (fun p => p.2.articles) := by
  induction rs with
  | nil => intro acc; simp
  | cons hd tl ih =>
    intro acc
    rw [List.foldl_cons, List.filter_cons]
    cases h : hd.2.status == "success"
    · rw [if_neg (by simp [h]), if_neg (by simp [h]), ih acc]
    · rw [if_pos (by simp [h]), if_pos (by simp [h]), List.flatMap_cons,
        ih (acc ++ hd.2.articles), List.append_assoc]

lemma allArticles_eq (results : List (String × ScrapingResult)) :
    allArticles results =
      (results.filter fun p => p.2.status == "success").flatMap
        (fun p => p.2.articles) := by
  unfold allArticles
  rw [allArticles_foldl results []]
  simp

lemma totalCount_foldl (rs : List (String × ScrapingResult)) :
    ∀ n : Nat,
      rs.foldl (fun acc p =>
          if p.2.status == "success" then acc + p.2.articles.length else acc) n =
        n + ((rs.filter fun p => p.2.status == "success").flatMap
          (fun p => p.2.articles)).length := by
  induction rs with
  | nil => intro n; simp
  | cons hd tl ih =>
    intro n
    rw [List.foldl_cons, List.filter_cons]
    cases h : hd.2.status == "success"
    · rw [if_neg (by simp [h]), if_neg (by simp [h]), ih n]
    · rw [if_pos (by simp [h]), if_pos (by simp [h]), List.flatMap_cons,
        ih (n + hd.2.articles.length), List.length_append, Nat.add_assoc]

lemma totalCount_eq (results : List (String × ScrapingResult)) :
    totalCount results =
      ((results.filter fun p => p.2.status == "success").flatMap
        (fun p => p.2.articles)).length := by
  unfold totalCount
  rw [totalCount_foldl results 0]
  simp

/-- The orchestrator's results dict and callback trace both list exactly
one entry per dispatched fetcher, keyed by the normalized source label,
in the gather (= submission) order. -/
lemma scrapeAllAsync_eq (env : ScrapeEnv) (now : String) (limit : Nat)
    (order : List Nat) :
    scrapeAllAsync env now limit order =
      ((allTaskResults env now limit).map fun r => (normKey r.source, r),
       (allTaskResults env now limit).map fun r => (normKey r.source, r)) := by
  have h1 := source_scrapeDarkReading env.feeds now limit
  have h2 := source_scrapeBleepingComputer env.feeds now limit
  have h3 := source_scrapeKrebsSecurity env.krebsOutcomes env.parseHtml now limit
    env.krebsOuterExc
  have h4 := source_fetchRssFeed env.feeds now "gb_hackers" limit
  have h5 := source_fetchRssFeed env.feeds now "the_hacker_news" limit
  have h6 := source_fetchRssFeed env.feeds now "security_week" limit
  simp only [scrapeAllAsync, gatherResults, allTaskResults, List.map, List.foldl,
    h1, h2, h3, h4, h5, h6]
  rfl

/-- Claim C2: for every RetryConfig and attempt index `a ≥ 1` the delay
slept before attempt `a` is `min(base_delay * backoff_factor ^ a, max_delay)`
and no delay precedes attempt 0; the slept-delay trace of a run whose
attempts all fail lists exactly those values for attempts `1..max_retries-1`;
with the configured `max_retries=3, base_delay=1, max_delay=10,
backoff_factor=2` the delays before attempts 0, 1, 2 are 0, 2, 4 and the
worst-case total wait is 6. -/
theorem retry_delay_policy (cfg : RetryConfig) (outcomes : Nat → AttemptOutcome)
    (a : Nat) (ha : 1 ≤ a)
    (hfail : ∀ i, i < cfg.max_retries → attemptOk (outcomes i) = false) :
    sleptBefore cfg a = min (cfg.base_delay * cfg.backoff_factor ^ a) cfg.max_delay
    ∧ sleptBefore cfg 0 = 0
    ∧ (scrapeWithRetry cfg outcomes).2 =
        (List.range cfg.max_retries).flatMap
          (fun i => if 0 < i then
              [min (cfg.base_delay * cfg.backoff_factor ^ i) cfg.max_delay]
            else [])
    ∧ (scrapeWithRetry defaultRetryConfig fun _ =>
        Except.error "connection error").2 = [2, 4]
    ∧ ((scrapeWithRetry defaultRetryConfig fun _ =>
        Except.error "connection error").2).sum = 6 := by
  refine ⟨?_, rfl, ?_, rfl, rfl⟩
  · unfold sleptBefore
    rw [if_pos (by omega)]
    rfl
  · have hz : ∀ k, k < cfg.max_retries → attemptOk (outcomes (0 + k)) = false := by
      intro k hk; rw [Nat.zero_add]; exact hfail k hk
    unfold scrapeWithRetry
    rw [retryFrom_trace cfg outcomes cfg.max_retries 0 hz, List.range_eq_range']
    simp only [delayFor]

/-- Witness for `retry_delay_policy` at the configured policy, `a = 1`,
and a run whose every attempt raises a connection error. -/
theorem retry_delay_policy_witness :
    sleptBefore defaultRetryConfig 1 =
      min (defaultRetryConfig.base_delay * defaultRetryConfig.backoff_factor ^ 1)
        defaultRetryConfig.max_delay
    ∧ sleptBefore defaultRetryConfig 0 = 0
    ∧ (scrapeWithRetry defaultRetryConfig fun _ =>
        Except.error "connection error").2 =
        (List.range defaultRetryConfig.max_retries).flatMap
          (fun i => if 0 < i then
              [min (defaultRetryConfig.base_delay *
                  defaultRetryConfig.backoff_factor ^ i)
                defaultRetryConfig.max_delay]
            else [])
    ∧ (scrapeWithRetry defaultRetryConfig fun _ =>
        Except.error "connection error").2 = [2, 4]
    ∧ ((scrapeWithRetry defaultRetryConfig fun _ =>
        Except.error "connection error").2).sum = 6 :=
  retry_delay_policy defaultRetryConfig (fun _ => Except.error "connection error")
    1 (by decide) (fun _ _ => rfl)

/-- Claim C3, amended: the retry loop performs at most `max_retries`
attempts (the result depends only on the first `max_retries` outcomes);
it succeeds on — and returns the body of — the first attempt whose HTTP
status is exactly 200 (if attempt `k < max_retries` answers 200 and every
earlier attempt failed, the loop returns that attempt's body; conversely
any returned body comes from such a first-200 attempt, every other
response or exception counting as a failed attempt); and when no attempt
has status 200 the Krebs fetch returns a result with `status = 'error'`
and error message `'Failed to fetch'`. -/
theorem scrape_retry_only_200_succeeds (cfg : RetryConfig)
    (outcomes : Nat → AttemptOutcome) (ph : String → List KrebsEntry)
    (now : String) (limit : Nat)
    (hfail : ∀ i, i < defaultRetryConfig.max_retries →
      attemptOk (outcomes i) = false) :
    (∀ (o2 : Nat → AttemptOutcome) (k : Nat) (body : String),
        k < cfg.max_retries → o2 k = Except.ok (200, body) →
        (∀ j, j < k → attemptOk (o2 j) = false) →
        (scrapeWithRetry cfg o2).1 = some body)
    ∧ (∀ (o2 : Nat → AttemptOutcome) (body : String),
        (scrapeWithRetry cfg o2).1 = some body →
        ∃ k, k < cfg.max_retries ∧ o2 k = Except.ok (200, body) ∧
          ∀ j, j < k → attemptOk (o2 j) = false)
    ∧ (∀ o2 o3 : Nat → AttemptOutcome,
        (∀ i, i < cfg.max_retries → o2 i = o3 i) →
        scrapeWithRetry cfg o2 = scrapeWithRetry cfg o3)
    ∧ (scrapeWithRetry defaultRetryConfig outcomes).1 = none
    ∧ scrapeKrebsSecurity outcomes ph now limit none =
        { source := "krebs_security", articles := [], status := "error",
          error := some "Failed to fetch" } := by
  have hz : ∀ k, k < defaultRetryConfig.max_retries →
      attemptOk (outcomes (0 + k)) = false := by
    intro k hk; rw [Nat.zero_add]; exact hfail k hk
  have hnone : (scrapeWithRetry defaultRetryConfig outcomes).1 = none :=
    retryFrom_fst_none defaultRetryConfig outcomes defaultRetryConfig.max_retries 0 hz
  refine ⟨?_, ?_, ?_, hnone, ?_⟩
  · intro o2 k body hk hok hj
    refine retryFrom_fst_first_success cfg o2 cfg.max_retries 0 k body hk ?_ ?_
    · rwa [Nat.zero_add]
    · intro j hjk
      rw [Nat.zero_add]
      exact hj j hjk
  · intro o2 body h
    obtain ⟨k, hk, hok, hj⟩ :=
      retryFrom_fst_some cfg o2 cfg.max_retries 0 body h
    rw [Nat.zero_add] at hok
    refine ⟨k, hk, hok, fun j hjk => ?_⟩
    have := hj j hjk
    rwa [Nat.zero_add] at this
  · intro o2 o3 h
    exact retryFrom_congr cfg o2 o3 cfg.max_retries 0
      (fun k hk => by rw [Nat.zero_add]; exact h k hk)
  · simp only [scrapeKrebsSecurity, hnone]
    rfl

/-- Witness for `scrape_retry_only_200_succeeds`: a run whose attempt 0
errors and whose attempt 1 answers 200 returns attempt 1's body, while a
run whose every attempt raises a connection error returns nothing and
makes the Krebs fetch report `'Failed to fetch'`. -/
theorem scrape_retry_only_200_succeeds_witness :
    (scrapeWithRetry defaultRetryConfig fun i =>
        if i = 1 then Except.ok (200, "<html>body</html>")
        else Except.error "connection error").1 = some "<html>body</html>"
    ∧ (scrapeWithRetry defaultRetryConfig fun _ =>
        Except.error "connection error").1 = none
    ∧ scrapeKrebsSecurity (fun _ => Except.error "connection error")
        (fun _ => []) "2025-01-01 00:00" 10 none =
        { source := "krebs_security", articles := [], status := "error",
          error := some "Failed to fetch" } :=
  ⟨(scrape_retry_only_200_succeeds defaultRetryConfig
      (fun _ => Except.error "connection error") (fun _ => [])
      "2025-01-01 00:00" 10 (fun _ _ => rfl)).1
      (fun i => if i = 1 then Except.ok (200, "<html>body</html>")
        else Except.error "connection error")
      1 "<html>body</html>" (by decide) rfl (by decide),
   (scrape_retry_only_200_succeeds defaultRetryConfig
      (fun _ => Except.error "connection error") (fun _ => [])
      "2025-01-01 00:00" 10 (fun _ _ => rfl)).2.2.2.1,
   (scrape_retry_only_200_succeeds defaultRetryConfig
      (fun _ => Except.error "connection error") (fun _ => [])
      "2025-01-01 00:00" 10 (fun _ _ => rfl)).2.2.2.2⟩

/-- Counterexample to claim C3 as stated: attempt 0 answers with status
201 — a 2xx response — yet the loop does not accept it (only exactly 200
is accepted), and after the retries are exhausted the error message is
`'Failed to fetch'`, not `'fetch failed'`. -/
theorem scrape_retry_claim_counterexample :
    (scrapeWithRetry defaultRetryConfig fun i =>
        if i = 0 then Except.ok (201, "<html>ok</html>")
        else Except.error "connection refused").1 = none
    ∧ scrapeKrebsSecurity
        (fun i => if i = 0 then Except.ok (201, "<html>ok</html>")
          else Except.error "connection refused")
        (fun _ => []) "2025-01-01 00:00" 10 none =
        { source := "krebs_security", articles := [], status := "error",
          error := some "Failed to fetch" } := ⟨rfl, rfl⟩

/-- Claim C1: every batch produces exactly one result per configured
source, keyed by the source label lowercased with spaces replaced by
underscores, in gather order; a source whose fetch fails (here: the Krebs
scrape, retries exhausted) appears with `status = 'error'` while a
successful source (here: gb_hackers) retains its full article list; no
descriptor's result is dropped. -/
theorem orchestrator_one_result_per_source (env : ScrapeEnv) (now : String)
    (limit : Nat) (order : List Nat)
    (hexc : env.krebsOuterExc = none)
    (hfail : ∀ i, i < defaultRetryConfig.max_retries →
      attemptOk (env.krebsOutcomes i) = false) :
    (scrapeAllAsync env now limit order).1 =
      (allTaskResults env now limit).map (fun r => (normKey r.source, r))
    ∧ ((scrapeAllAsync env now limit order).1).map Prod.fst =
      ["dark_reading", "bleeping_computer", "krebs_security",
       "gb_hackers", "the_hacker_news", "security_week"]
    ∧ ((scrapeAllAsync env now limit order).1).lookup "krebs_security" =
      some { source := "krebs_security", articles := [], status := "error",
             error := some "Failed to fetch" }
    ∧ (∀ entries, env.feeds "https://gbhackers.com/feed/" = Except.ok entries →
      ((scrapeAllAsync env now limit order).1).lookup "gb_hackers" =
        some { source := "gb_hackers",
               articles := (entries.take limit).map (rssArticle "gb_hackers" now),
               status := "success", error := none }) := by
  have heq := scrapeAllAsync_eq env now limit order
  have hz : ∀ k, k < defaultRetryConfig.max_retries →
      attemptOk (env.krebsOutcomes (0 + k)) = false := by
    intro k hk; rw [Nat.zero_add]; exact hfail k hk
  have hnone : (scrapeWithRetry defaultRetryConfig env.krebsOutcomes).1 = none :=
    retryFrom_fst_none defaultRetryConfig env.krebsOutcomes
      defaultRetryConfig.max_retries 0 hz
  have hk : scrapeKrebsSecurity env.krebsOutcomes env.parseHtml now limit
      env.krebsOuterExc =
      { source := "krebs_security", articles := [], status := "error",
        error := some "Failed to fetch" } := by
    rw [hexc]
    simp only [scrapeKrebsSecurity, hnone]
    rfl
  have hdict : (scrapeAllAsync env now limit order).1 =
      [("dark_reading", scrapeDarkReading env.feeds now limit),
       ("bleeping_computer", scrapeBleepingComputer env.feeds now limit),
       ("krebs_security", scrapeKrebsSecurity env.krebsOutcomes env.parseHtml
         now limit env.krebsOuterExc),
       ("gb_hackers", (fetchRssFeed env.feeds now "gb_hackers" limit).1),
       ("the_hacker_news", (fetchRssFeed env.feeds now "the_hacker_news" limit).1),
       ("security_week", (fetchRssFeed env.feeds now "security_week" limit).1)] := by
    rw [heq]
    simp only [allTaskResults, List.map, source_scrapeDarkReading,
      source_scrapeBleepingComputer, source_scrapeKrebsSecurity,
      source_fetchRssFeed]
    rfl
  refine ⟨by rw [heq], by rw [hdict]; rfl, by rw [hdict, hk]; rfl, ?_⟩
  intro entries hg
  have hurl : lookupFeed "gb_hackers" = some "https://gbhackers.com/feed/" := rfl
  have h4 : (fetchRssFeed env.feeds now "gb_hackers" limit).1 =
      { source := "gb_hackers",
        articles := (entries.take limit).map (rssArticle "gb_hackers" now),
        status := "success", error := none } := by
    simp only [fetchRssFeed, hurl, Option.getD_some]
    rw [if_neg (by decide), hg]
  rw [hdict, h4]
  rfl

/-- Witness for `orchestrator_one_result_per_source` at `witnessEnvC1`. -/
theorem orchestrator_one_result_per_source_witness :
    ((scrapeAllAsync witnessEnvC1 "2025-01-01 00:00" 5 [5, 4, 3, 2, 1, 0]).1).map
        Prod.fst =
      ["dark_reading", "bleeping_computer", "krebs_security",
       "gb_hackers", "the_hacker_news", "security_week"]
    ∧ ((scrapeAllAsync witnessEnvC1 "2025-01-01 00:00" 5
        [5, 4, 3, 2, 1, 0]).1).lookup "krebs_security" =
      some { source := "krebs_security", articles := [], status := "error",
             error := some "Failed to fetch" } :=
  ⟨(orchestrator_one_result_per_source witnessEnvC1 "2025-01-01 00:00" 5
      [5, 4, 3, 2, 1, 0] rfl (fun _ _ => rfl)).2.1,
   (orchestrator_one_result_per_source witnessEnvC1 "2025-01-01 00:00" 5
      [5, 4, 3, 2, 1, 0] rfl (fun _ _ => rfl)).2.2.1⟩

/-- Claim C4, amended: with a progress callback supplied, the callback is
invoked exactly once per configured source with `(sourceId, SourceResult)`,
but only after the gather barrier has resolved, in the fixed submission
order of the task list — the trace is independent of the order in which
the tasks complete. -/
theorem progress_callbacks_submission_order (env : ScrapeEnv) (now : String)
    (limit : Nat) (order order' : List Nat) :
    (scrapeAllAsync env now limit order).2 =
      (allTaskResults env now limit).map (fun r => (normKey r.source, r))
    ∧ ((scrapeAllAsync env now limit order).2).map Prod.fst =
      ["dark_reading", "bleeping_computer", "krebs_security",
       "gb_hackers", "the_hacker_news", "security_week"]
    ∧ (scrapeAllAsync env now limit order).2 =
      (scrapeAllAsync env now limit order').2 := by
  have heq := scrapeAllAsync_eq env now limit order
  have heq' := scrapeAllAsync_eq env now limit order'
  refine ⟨by rw [heq], ?_, by rw [heq, heq']⟩
  rw [heq]
  simp only [allTaskResults, List.map, source_scrapeDarkReading,
    source_scrapeBleepingComputer, source_scrapeKrebsSecurity,
    source_fetchRssFeed]
  rfl

/-- Counterexample to claim C4 as stated: in a run where every source
fails and the completion order is the exact reverse of the submission
order (task 5 finishes first, task 0 last), the callback trace still
lists the sources in submission order — the callbacks are not interleaved
in completion order, and none fires before the gather barrier resolves. -/
theorem progress_callbacks_completion_order_counterexample :
    ((scrapeAllAsync
        { feeds := fun _ => Except.error "connection error"
          krebsOutcomes := fun _ => Except.error "connection error"
          parseHtml := fun _ => []
          krebsOuterExc := none } "2025-01-01 00:00" 5 [5, 4, 3, 2, 1, 0]).2).map
        Prod.fst =
      ["dark_reading", "bleeping_computer", "krebs_security",
       "gb_hackers", "the_hacker_news", "security_week"]
    ∧ ((scrapeAllAsync
        { feeds := fun _ => Except.error "connection error"
          krebsOutcomes := fun _ => Except.error "connection error"
          parseHtml := fun _ => []
          krebsOuterExc := none } "2025-01-01 00:00" 5 [5, 4, 3, 2, 1, 0]).2).map
        Prod.fst ≠
      ["security_week", "the_hacker_news", "gb_hackers",
       "krebs_security", "bleeping_computer", "dark_reading"] := by
  constructor
  · rfl
  · decide

lemma statusErrorNeSuccess : ("error" : String) ≠ "success" := by decide

lemma resultInvariant_error (src : String) (e : Option String) :
    resultInvariant { source := src, articles := [], status := "error", error := e } :=
  ⟨fun h => absurd h statusErrorNeSuccess, fun h => absurd rfl h⟩

lemma resultInvariant_success (src : String) (arts : List Article) :
    resultInvariant
      { source := src, articles := arts, status := "success", error := none } :=
  ⟨fun _ => rfl, fun _ => rfl⟩

/-- Claim C5: every result produced by any fetch operation — the RSS feed
fetch, the two feed-based scraper coroutines, and the Krebs HTML scrape —
satisfies the invariant: `status = 'success'` implies the error field is
absent, and the articles list is non-empty only when `status = 'success'`
(every error result carries an empty list; an empty successful result is
permitted). -/
theorem source_result_invariant (feeds : String → FeedOutcome)
    (outcomes : Nat → AttemptOutcome) (ph : String → List KrebsEntry)
    (exc : Option String) (now source : String) (limit : Nat) :
    resultInvariant ((fetchRssFeed feeds now source limit).1)
    ∧ resultInvariant (scrapeDarkReading feeds now limit)
    ∧ resultInvariant (scrapeBleepingComputer feeds now limit)
    ∧ resultInvariant (scrapeKrebsSecurity outcomes ph now limit exc) := by
  refine ⟨?_, ?_, ?_, ?_⟩
  · unfold fetchRssFeed
    dsimp only
    split
    · exact resultInvariant_error source (some "No RSS feed configured")
    · split
      · exact resultInvariant_error source _
      · exact resultInvariant_success source _
  · unfold scrapeDarkReading
    cases feeds "https://www.darkreading.com/rss.xml"
    · exact resultInvariant_error "dark_reading" _
    · exact resultInvariant_success "dark_reading" _
  · unfold scrapeBleepingComputer
    cases feeds "https://www.bleepingcomputer.com/feed/"
    · exact resultInvariant_error "bleeping_computer" _
    · exact resultInvariant_success "bleeping_computer" _
  · unfold scrapeKrebsSecurity
    cases exc
    · dsimp only
      split
      · exact resultInvariant_error "krebs_security" _
      · exact resultInvariant_success "krebs_security" _
    · exact resultInvariant_error "krebs_security" _

/-- Claim C6: the flattened article sequence is the concatenation of each
success-status result's articles in the iteration order of the result
map, the total count equals that concatenation's length, and error-status
results contribute nothing (filtering them away changes neither) while
aggregation leaves the map itself untouched. -/
theorem aggregation_concat_success (results : List (String × ScrapingResult)) :
    allArticles results =
      (results.filter fun p => p.2.status == "success").flatMap
        (fun p => p.2.articles)
    ∧ totalCount results = (allArticles results).length
    ∧ allArticles results =
        allArticles (results.filter fun p => p.2.status == "success") := by
  refine ⟨allArticles_eq results, ?_, ?_⟩
  · rw [totalCount_eq, allArticles_eq]
  · rw [allArticles_eq, allArticles_eq, List.filter_filter]
    simp

/-- Claim C7: every article surfaced by the Krebs scrape takes its `url`
from the href extracted through the entry's title-element link — never
the defaulted `'N/A'` sentinel, which the scrape path never uses — and an
entry from which no link can be extracted is skipped outright. -/
theorem scrape_article_url_extracted (now : String) :
    (∀ e a, parseKrebsEntry now e = some a →
      linkHrefOf e = some a.url ∧ a.url ≠ "")
    ∧ (∀ e, linkHrefOf e = none → parseKrebsEntry now e = none) := by
  constructor
  · intro e a h
    unfold parseKrebsEntry at h
    cases ht : titleElemOf e with
    | none => rw [ht] at h; exact absurd h (by simp)
    | some t =>
      rw [ht] at h
      cases hl : linkHrefOf e with
      | none => rw [hl] at h; exact absurd h (by simp)
      | some url =>
        rw [hl] at h
        dsimp only at h
        cases hu : url == "" with
        | true => rw [hu] at h; exact absurd h (by simp)
        | false =>
          rw [hu] at h
          simp only [Bool.false_eq_true, if_false, Option.some.injEq] at h
          subst h
          exact ⟨rfl, by simpa using hu⟩
  · intro e h
    unfold parseKrebsEntry
    cases ht : titleElemOf e with
    | none => rfl
    | some t => rw [h]

/-- Witness for `scrape_article_url_extracted`: a concrete entry whose
title element links to a real post. -/
theorem scrape_article_url_extracted_witness :
    linkHrefOf krebsEntryW7 = some krebsArticleW7.url
    ∧ krebsArticleW7.url ≠ "" :=
  (scrape_article_url_extracted "2025-01-01 00:00").1 krebsEntryW7
    krebsArticleW7 (by decide)

/-- Claim C8, amended: every feed-path article carries a `published`
field, taken from the upstream entry when present and otherwise defaulted
to the formatted current local time; articles from the Krebs scrape path
instead carry a `scraped_at` field set to the formatted current local
time and no `published` field at all. -/
theorem article_published_fields (source now : String) (e : FeedEntry) :
    (rssArticle source now e).published = some (e.published.getD now)
    ∧ (darkReadingArticle now e).published = some (e.published.getD now)
    ∧ (bleepingComputerArticle now e).published = some (e.published.getD now)
    ∧ (∀ ke a, parseKrebsEntry now ke = some a →
        a.published = none ∧ a.scraped_at = some now) := by
  refine ⟨rfl, rfl, rfl, ?_⟩
  intro ke a h
  unfold parseKrebsEntry at h
  cases ht : titleElemOf ke with
  | none => rw [ht] at h; exact absurd h (by simp)
  | some t =>
    rw [ht] at h
    cases hl : linkHrefOf ke with
    | none => rw [hl] at h; exact absurd h (by simp)
    | some url =>
      rw [hl] at h
      dsimp only at h
      cases hu : url == "" with
      | true => rw [hu] at h; exact absurd h (by simp)
      | false =>
        rw [hu] at h
        simp only [Bool.false_eq_true, if_false, Option.some.injEq] at h
        subst h
        exact ⟨rfl, rfl⟩

/-- Witness for `article_published_fields` at a concrete feed entry with
no upstream timestamp and a concrete Krebs entry. -/
theorem article_published_fields_witness :
    (rssArticle "gb_hackers" "2025-01-01 00:00" feedEntryW8).published =
      some "2025-01-01 00:00"
    ∧ krebsArticleW8.published = none
    ∧ krebsArticleW8.scraped_at = some "2025-01-01 00:00" := by
  have h := article_published_fields "gb_hackers" "2025-01-01 00:00" feedEntryW8
  have hk := h.2.2.2 krebsEntryW8 krebsArticleW8 (by decide)
  exact ⟨h.1, hk.1, hk.2⟩

/-- Counterexample to claim C8 as stated: a Krebs scrape entry with a
title, link and summary produces an article whose `published` field is
absent — the scrape path stores the timestamp under `scraped_at` instead. -/
theorem article_published_counterexample :
    parseKrebsEntry "2025-01-01 00:00" krebsEntryX8 =
      some { title := "Krebs post", url := "https://krebsonsecurity.com/post-3/",
             summary := "Body text.", published := none,
             scraped_at := some "2025-01-01 00:00",
             source := "Krebs on Security", author := none } := by decide

/-- Claim C9: when the flattened article sequence is empty (for example
when every result has `status = 'error'`), the exporter writes no file,
returns no file name, and reports the no-data warning instead. -/
theorem export_declined_on_empty (timestamp : String)
    (results : List (String × ScrapingResult)) (formatType : String)
    (h : allArticles results = []) :
    saveResults timestamp results formatType =
      { csvFile := none, jsonFile := none, warnedNoData := true } := by
  unfold saveResults
  rw [h]
  rfl

/-- Witness for `export_declined_on_empty`: a run whose only two results
are errors. -/
theorem export_declined_on_empty_witness :
    saveResults "20250101_000000"
      [("krebs_security",
        { source := "krebs_security", articles := [], status := "error",
          error := some "Failed to fetch" }),
       ("gb_hackers",
        { source := "gb_hackers", articles := [], status := "error",
          error := some "connection error" })] "both" =
      { csvFile := none, jsonFile := none, warnedNoData := true } :=
  export_declined_on_empty "20250101_000000"
    [("krebs_security",
      { source := "krebs_security", articles := [], status := "error",
        error := some "Failed to fetch" }),
     ("gb_hackers",
      { source := "gb_hackers", articles := [], status := "error",
        error := some "connection error" })] "both" rfl

/-- Claim C10: asking the feed fetcher for a source with no configured
feed URL yields `status = 'error'` with message
`'No RSS feed configured'` and an empty article list, independently of
the network environment and without fetching any URL (the returned trace
of retrieved URLs is empty); the Lean model is total, mirroring that the
Python function catches every exception. -/
theorem fetch_rss_unconfigured (feeds : String → FeedOutcome)
    (now source : String) (limit : Nat) (h : lookupFeed source = none) :
    fetchRssFeed feeds now source limit =
      ({ source := source, articles := [], status := "error",
         error := some "No RSS feed configured" }, []) := by
  unfold fetchRssFeed
  rw [h]
  rfl

/-- Witness for `fetch_rss_unconfigured`: the source id `'reddit'` has no
configured feed. -/
theorem fetch_rss_unconfigured_witness :
    fetchRssFeed (fun _ => Except.error "connection error") "2025-01-01 00:00"
      "reddit" 20 =
      ({ source := "reddit", articles := [], status := "error",
         error := some "No RSS feed configured" }, []) :=
  fetch_rss_unconfigured (fun _ => Except.error "connection error")
    "2025-01-01 00:00" "reddit" 20 rfl

end Scrapper
